import Mathlib

/-!
Verification of the AetherCore cash-logistics normalization and insertion
pipeline.  The definitions below are a shallow embedding of the Python
source: strings are Lean `String`s handled through structurally recursive
helpers over their character lists (mirroring Python `str` operations),
monetary amounts are `Int` (the inputs the code feeds to `Decimal` are
integral after its own cleaning steps), and the ledger database is the
list of `NumeroPedido` values stored in the `CgsServicios` table.
-/

namespace AetherCore

/-! ### Character-list string toolkit (Python `str` operations) -/

/-- Python whitespace test used by `str.strip` for the characters that occur
in this pipeline's data. -/
def esEspacio (c : Char) : Bool :=
  c = ' ' || c = '\t' || c = '\n' || c = '\r'

/-- Python `str.strip()`. -/
def pyStrip (s : String) : String :=
  String.mk (((s.data.dropWhile esEspacio).reverse.dropWhile esEspacio).reverse)

/-- Python `str.upper()` (ASCII range, which is all this pipeline compares). -/
def pyUpper (s : String) : String :=
  String.mk (s.data.map Char.toUpper)

/-- Fuel-driven worker for `pySplit`; fuel bounds the number of characters
still to be consumed, so the recursion is structural. -/
def pySplitGo (sep : List Char) : Nat → List Char → List (List Char)
  | _, [] => [[]]
  | 0, s => [s]
  | Nat.succ n, s =>
    if sep.isPrefixOf s then
      [] :: pySplitGo sep n (s.drop sep.length)
    else
      match s with
      | [] => [[]]
      | c :: rest =>
        match pySplitGo sep n rest with
        | [] => [[c]]
        | h :: t => (c :: h) :: t

/-- Python `s.split(sep)` for a non-empty separator. -/
def pySplit (s sep : String) : List String :=
  (pySplitGo sep.data (s.data.length + 1) s.data).map String.mk

/-- Python `sub in s` (substring containment). -/
def pyContains (s sub : String) : Bool :=
  1 < (pySplit s sub).length

/-- Python `s.replace(old, new)` (all occurrences). -/
def pyReplace (s old new : String) : String :=
  String.intercalate new (pySplit s old)

/-- Python `s.split(sep, 1)` (at most one split). -/
def pySplitOnce (s sep : String) : List String :=
  match pySplit s sep with
  | [] => []
  | [x] => [x]
  | x :: rest => [x, String.intercalate sep rest]

/-- Python `s.startswith(p)`. -/
def pyStartsWith (s p : String) : Bool :=
  p.data.isPrefixOf s.data

/-- Value of a decimal digit string (`int(s)` on an all-digit string). -/
def digitsToNat (cs : List Char) : Nat :=
  cs.foldl (fun n c => 10 * n + (c.toNat - Char.toNat '0')) 0

/-- Python lexicographic comparison `x <= y` on strings, character list by
character list, by Unicode code point. -/
def charListLe : List Char → List Char → Bool
  | [], _ => true
  | _ :: _, [] => false
  | a :: as, b :: bs =>
    if a.toNat < b.toNat then true
    else if b.toNat < a.toNat then false
    else charListLe as bs

/-- Python `x <= y` on strings. -/
def strLe (a b : String) : Bool :=
  charListLe a.data b.data

/-! ### Data model (`servicio_dto.py`, `transaccion_dto.py`, restricted to the
fields this development reasons about) -/

/-- The fields of `ServicioDTO` used by the insertion gateway and the
monetary invariants. -/
structure ServicioDTO where
  numero_pedido : String
  cod_sucursal : Int
  valor_billete : Int
  valor_moneda : Int
  valor_servicio : Int
deriving Repr, DecidableEq

/-- The fields of `TransaccionDTO` used by the insertion gateway and the
monetary invariants. -/
structure TransaccionDTO where
  cod_sucursal : Int
  valor_billetes_declarado : Int
  valor_monedas_declarado : Int
  valor_total_declarado : Int
deriving Repr, DecidableEq

/-! ### Deduplicator / insertion gateway
(`service_writer_repository.py`, `service_transaction_sp.py`) -/

/-- The ledger: the `NumeroPedido` column of the `CgsServicios` table, one
entry per stored row. -/
abbrev Ledger := List String

/-- `ServiceWriterRepository.verificar_servicio_existe`: runs
`SELECT COUNT(*) FROM CgsServicios WHERE NumeroPedido = ?` and returns
`count > 0`; if the query raises (`lookupRaises`), the exception handler
returns `False` ("asumir que NO existe (para no bloquear inserción)"). -/
def verificar_servicio_existe (ledger : Ledger) (lookupRaises : Bool)
    (numero_pedido : String) : Bool :=
  if lookupRaises then false
  else decide (0 < ledger.count numero_pedido)

/-- Modelled from the spec: the DB-side stored procedure
`AddServiceTransaction` (consumed through `ServiceTransactionSP.ejecutar`,
its body is not in the repository) performs the atomic Service+Transaction
write and returns a generated, ledger-assigned order reference
(spec sections 4.5 and 6, "Ledger write interface"). -/
def addServiceTransaction (numero_pedido : String) (ledger : Ledger) :
    String × Ledger :=
  (String.append "S-" (toString (ledger.length + 1)), ledger ++ [numero_pedido])

/-- Outcome of `ServiceWriterRepository.insertar_servicio_con_transaccion`:
the generated order string, `None` (duplicate, write omitted), or the
`DatabaseWriteException` raised by the branch-consistency check
("Inconsistencia: Servicio tiene sucursal ..., Transacción tiene sucursal ..."). -/
inductive GatewayResult where
  | ordenServicio (orden : String)
  | alreadyExists
  | inconsistenciaSucursal
deriving Repr, DecidableEq

/-- `ServiceWriterRepository.insertar_servicio_con_transaccion`: validate the
cross-field branch invariant, then check existence, then execute the stored
procedure.  Returns the outcome together with the ledger state after the
call. -/
def insertar_servicio_con_transaccion (servicio : ServicioDTO)
    (transaccion : TransaccionDTO) (lookupRaises : Bool) (ledger : Ledger) :
    GatewayResult × Ledger :=
  if servicio.cod_sucursal ≠ transaccion.cod_sucursal then
    (.inconsistenciaSucursal, ledger)
  else if verificar_servicio_existe ledger lookupRaises servicio.numero_pedido then
    (.alreadyExists, ledger)
  else
    let r := addServiceTransaction servicio.numero_pedido ledger
    (.ordenServicio r.1, r.2)

/-! ### Per-record result wrapper (`insertion_service.py`) -/

/-- `ResultadoInsercion` from `insertion_service.py`. -/
structure ResultadoInsercion where
  exitoso : Bool
  numero_pedido : String
  orden_servicio : Option String
  error : Option String
deriving Repr, DecidableEq

/-- The result handling of `InsertionService.insertar_desde_txt_tipo2`
(lines 122-164) after a successful mapping: a non-null order becomes a
success; a `None` return ("probablemente ya existía") becomes a failed
result with error "Servicio ya existe (duplicado)"; a
`DatabaseWriteException` is caught and becomes a failed result with an
"Error de BD" message.  No exception propagates out of any branch. -/
def resultadoDesdeWriter (numero_pedido : String) :
    GatewayResult → ResultadoInsercion
  | .ordenServicio orden => ⟨true, numero_pedido, some orden, none⟩
  | .alreadyExists =>
      ⟨false, numero_pedido, none, some "Servicio ya existe (duplicado)"⟩
  | .inconsistenciaSucursal =>
      ⟨false, numero_pedido, none, some "Error de BD: Inconsistencia"⟩

/-- `InsertionService.insertar_desde_txt_tipo2` from the point where the DTOs
have been mapped: call the writer and wrap the outcome. -/
def insertar_desde_txt_tipo2 (servicio : ServicioDTO)
    (transaccion : TransaccionDTO) (lookupRaises : Bool) (ledger : Ledger) :
    ResultadoInsercion × Ledger :=
  let r := insertar_servicio_con_transaccion servicio transaccion lookupRaises ledger
  (resultadoDesdeWriter servicio.numero_pedido r.1, r.2)

/-! ### Denomination classification (`mapeos_bd.py`, `data_mapper_service.py`,
`cash4u_mapper.py`) -/

/-- `ConversionHelper.determinar_tipo_denominacion` (`mapeos_bd.py` lines
354-365): `'BILLETE' if denominacion >= 1000 else 'MONEDA'`.  Used by the
fixed-text channel's drawer summation. -/
def determinar_tipo_denominacion (denominacion : Int) : String :=
  if denominacion ≥ 1000 then "BILLETE" else "MONEDA"

/-- One drawer step of
`DataMapperService._calcular_valores_desde_registro_txt` (lines 607-618):
classify the drawer's denomination with `determinar_tipo_denominacion` and
add `denominacion * cantidad` to the matching bucket
`(total_billete, total_moneda)`. -/
def acumular_gaveta_txt (acc : Int × Int) (gaveta : Int × Int) : Int × Int :=
  let valor_gaveta := gaveta.1 * gaveta.2
  if determinar_tipo_denominacion gaveta.1 = "BILLETE" then
    (acc.1 + valor_gaveta, acc.2)
  else
    (acc.1, acc.2 + valor_gaveta)

/-- The collection-zeroing step of `DataMapperService.mapear_desde_txt_tipo2`
(lines 163-169 plus the DTO fields at lines 218-220): when the record is not
a provision, both calculated values are replaced by 0; `valor_servicio` is
always `valor_billete + valor_moneda`. -/
def valores_txt_tipo2 (es_provision : Bool) (valor_billete valor_moneda : Int) :
    Int × Int × Int :=
  let v : Int × Int :=
    if es_provision then (valor_billete, valor_moneda) else (0, 0)
  (v.1, v.2, v.1 + v.2)

/-- The monetary fields of the `ServicioDTO` built by
`DataMapperService.mapear_desde_xml_remit` (lines 496-516): hard-coded
`Decimal('0')` for the three values. -/
def valores_xml_remit : Int × Int × Int := (0, 0, 0)

/-- One denomination step of
`DataMapperService._calcular_valores_desde_denominaciones_xml` (lines
634-648): the numeric value of the denomination is the digit characters of
the code (`int(''.join(filter(str.isdigit, code)))`, and `int('')` raises,
which the `except` clause turns into skipping the entry); a value `>= 1000`
adds the amount to the banknote bucket, anything else to the coin bucket. -/
def acumular_denominacion_xml (acc : Int × Int) (denom : String × Int) :
    Int × Int :=
  let digits := denom.1.data.filter Char.isDigit
  if digits.isEmpty then acc
  else
    let valor_denom := digitsToNat digits
    if valor_denom ≥ 1000 then (acc.1 + denom.2, acc.2)
    else (acc.1, acc.2 + denom.2)

/-- `DataMapperService._calcular_valores_desde_denominaciones_xml` (lines
626-650) over a list of `(code, amount)` pairs. -/
def calcular_valores_desde_denominaciones_xml
    (denominaciones : List (String × Int)) : Int × Int :=
  denominaciones.foldl acumular_denominacion_xml (0, 0)

/-- The unit-value adjustment of `Cash4uExcelMapper.mapear_a_dtos` (lines
165-168): on a coin-flagged row (`es_moneda`), a denomination `>= 10000` is
divided by 100 (`int(deno / 100)`) before classification. -/
def cash4u_ajustar_deno (es_moneda : Bool) (deno : Nat) : Nat :=
  if es_moneda ∧ deno ≥ 10000 then deno / 100 else deno

/-- One denomination-column step of `Cash4uExcelMapper.mapear_a_dtos` (lines
162-177): skip non-positive quantities, adjust the unit value, then add
`cantidad * deno` to the banknote bucket when the adjusted value is
`>= 2000` and to the coin bucket otherwise. -/
def cash4u_acumular (es_moneda : Bool) (acc : Int × Int) (col : Nat × Int) :
    Int × Int :=
  if col.2 > 0 then
    let deno := cash4u_ajustar_deno es_moneda col.1
    let subtotal := col.2 * (deno : Int)
    if deno ≥ 2000 then (acc.1 + subtotal, acc.2)
    else (acc.1, acc.2 + subtotal)
  else acc

/-- The monetary fields `(valor_billete, valor_moneda, valor_servicio)`
computed by `Cash4uExcelMapper.mapear_a_dtos` (lines 151-179): a collection
row takes `valor_servicio` from the parsed collected-value column and copies
it into `valor_billete` when positive; otherwise the denomination columns
are summed into the two buckets and `valor_servicio` is their sum. -/
def cash4u_valores (es_recoleccion es_moneda : Bool) (valor_rec : Int)
    (cols_denominacion : List (Nat × Int)) : Int × Int × Int :=
  if es_recoleccion then
    let valor_servicio := valor_rec
    let valor_billete := if valor_servicio > 0 then valor_servicio else 0
    (valor_billete, 0, valor_servicio)
  else
    let v := cols_denominacion.foldl (cash4u_acumular es_moneda) (0, 0)
    (v.1, v.2, v.1 + v.2)

/-! ### Acknowledgement emitters (`txt_processor.py`, `response_service.py`,
`xml_processor.py`, `xml_mappers.py`) -/

/-- Ordering used by Python `sorted(pares, key=lambda t: str(t[0]))` in
`TXTResponseGenerator.generar_respuesta_por_id`: compare the id components
lexicographically as strings. -/
def parLe (a b : String × String) : Prop :=
  strLe a.1 b.1 = true

instance : DecidableRel parLe := fun a b =>
  inferInstanceAs (Decidable (strLe a.1 b.1 = true))

/-- One body line written by `TXTResponseGenerator.generar_respuesta_por_id`:
`f"{str(id_val).strip()},{str(est).strip()}\n"`. -/
def linea_respuesta (par : String × String) : String :=
  pyStrip par.1 ++ "," ++ pyStrip par.2 ++ "\n"

/-- The `(id, estado)` pairs in the order
`TXTResponseGenerator.generar_respuesta_por_id` writes them: stable-sorted
by the string value of the id. -/
def respuesta_por_id_pares (pares : List (String × String)) :
    List (String × String) :=
  List.insertionSort parLe pares

/-- The acknowledgement file body emitted by
`TXTResponseGenerator.generar_respuesta_por_id` (lines 55-90). -/
def generar_respuesta_por_id_body (pares : List (String × String)) : String :=
  String.join ((respuesta_por_id_pares pares).map linea_respuesta)

/-- `extract_cc_from_filename` (`xml_mappers.py` lines 217-232), and
identically `ResponseService._extract_cc_code_from_filename`
(`response_service.py` lines 20-35): split the name on underscores; if the
second part starts with `C4U-` and the following two characters are digits,
return those two digits; otherwise return "00". -/
def extract_cc_from_filename (xml_name : String) : String :=
  let partes := pySplit xml_name "_"
  match partes with
  | _ :: p1 :: _ =>
    if pyStartsWith p1 "C4U-" then
      match (String.mk (p1.data.drop 4)).data with
      | c0 :: c1 :: _ =>
        if c0.isDigit ∧ c1.isDigit then String.mk [c0, c1] else "00"
      | _ => "00"
    else "00"
  | _ => "00"

/-- A dataset row as consumed by the list-of-dicts branch of
`ResponseService`: the `ID` key (absent keys yield no id) and the three
fields `_compute_estado` scans. -/
structure FilaDataset where
  id : Option String
  nombre_punto : String
  entidad : String
  ciudad : String
deriving Repr, DecidableEq

/-- Python `'NO ENCONTRADO' in str(v).upper()`. -/
def contiene_no_encontrado (s : String) : Bool :=
  pyContains (pyUpper s) "NO ENCONTRADO"

/-- Whether a row trips `ResponseService._compute_estado`: `NO ENCONTRADO`
in `NOMBRE PUNTO`, `ENTIDAD` or `CIUDAD`. -/
def fila_mala (f : FilaDataset) : Bool :=
  contiene_no_encontrado f.nombre_punto || contiene_no_encontrado f.entidad ||
    contiene_no_encontrado f.ciudad

/-- `ResponseService._compute_estado` (lines 109-147) on a list of rows:
"2" when any row has `NO ENCONTRADO` in one of the three fields, else
"1". -/
def compute_estado (dataset : List FilaDataset) : String :=
  if dataset.any fila_mala then "2" else "1"

/-- String ordering for Python `sorted` on plain id lists. -/
def strLeProp (a b : String) : Prop :=
  strLe a b = true

instance : DecidableRel strLeProp := fun a b =>
  inferInstanceAs (Decidable (strLe a b = true))

/-- Python `sorted(list(set(ids)))`: deduplicate, then sort ascending. -/
def sortedSet (ids : List String) : List String :=
  List.insertionSort strLeProp ids.dedup

/-- `ResponseService._collect_ids` (lines 63-107) on a list of rows: gather
the `ID` values in row order, then `sorted(list(set(ids)))`. -/
def collect_ids (dataset : List FilaDataset) : List String :=
  sortedSet (dataset.filterMap FilaDataset.id)

/-- The id list `ResponseService.generate_and_save` iterates over: the
collected ids, or the source file name as the single id when none were
found, passed once more through `sorted(set(ids))`. -/
def ids_emitidos (dataset : List FilaDataset) (xml_name : String) :
    List String :=
  let ids0 := collect_ids dataset
  let ids := if ids0.isEmpty then [xml_name] else ids0
  sortedSet ids

/-- `ResponseService.generate_and_save` (lines 150-182), reduced to the data
this development reasons about: the `<CC>` component of the emitted file
name `TR2_VATCO_<CC><TS>.txt` and the `(id, estado)` line list of the body
(each line written as `f"{_id.strip()},{estado}\n"`). -/
def generate_and_save (dataset : List FilaDataset) (xml_name : String) :
    String × List (String × String) :=
  let estado := compute_estado dataset
  let cc_code := extract_cc_from_filename xml_name
  (cc_code, (ids_emitidos dataset xml_name).map (fun i => (pyStrip i, estado)))

/-- The `<CC>` component chosen by `XMLProcessor.procesar_archivo_xml`
(lines 173-181) for the per-id response file: the ids are non-empty by the
surrounding guard; when every id's estado (defaulting to "1") is "2"
(`solo_errores`), the code is forced to "00", otherwise it is extracted
from the source file name. -/
def xml_cc_code (ids : List String) (estados_por_id : List (String × String))
    (xml_name : String) : String :=
  let estados_usados := ids.map (fun i => (estados_por_id.lookup i).getD "1")
  let solo_errores := ¬ ids.isEmpty ∧ estados_usados.all (· = "2")
  if solo_errores then "00" else extract_cc_from_filename xml_name

/-! ### Point resolution with fallbacks (`xml_mappers.py`, `mapeos.py`) -/

/-- A point-info dict value from the reference database; Python truthiness
of the dict is emptiness of this list. -/
abbrev PuntoInfo := List (String × String)

/-- The `puntos_info` reference dictionary passed to the XML mappers. -/
abbrev PuntosInfo := List (String × PuntoInfo)

/-- Python `puntos_info.get(k, {})`. -/
def dictGetD (puntos_info : PuntosInfo) (k : String) : PuntoInfo :=
  (puntos_info.lookup k).getD []

/-- `ClienteMapeos.CLIENTE_TO_CC` (`mapeos.py` lines 10-15). -/
def CLIENTE_TO_CC : List (String × String) :=
  [("45", "52"), ("46", "01"), ("47", "02"), ("48", "23")]

/-- The inverted map `{v: k for k, v in ClienteMapeos.CLIENTE_TO_CC.items()}`
built inside `_buscar_punto_con_fallbacks`. -/
def cc_to_cliente : List (String × String) :=
  CLIENTE_TO_CC.map (fun p => (p.2, p.1))

/-- Strategy 3 of `_buscar_punto_con_fallbacks` (`xml_mappers.py` lines
46-65): normalize `-SUC-` to `-`, split once on `-`, translate a leading CC
code to the reference client code through the inverted map and look up
`cliente-numero`; empty dict when any step does not apply. -/
def buscar_punto_paso3 (codigo_raw : String) (puntos_info : PuntosInfo) :
    PuntoInfo :=
  let codigo_normalizado := pyReplace codigo_raw "-SUC-" "-"
  match pySplitOnce codigo_normalizado "-" with
  | [posible_cc, numero_punto] =>
    match cc_to_cliente.lookup posible_cc with
    | some codigo_cliente =>
      let codigo_convertido := codigo_cliente ++ "-" ++ numero_punto
      let p3 := dictGetD puntos_info codigo_convertido
      if ¬ p3.isEmpty then p3 else []
    | none => []
  | _ => []

/-- `_buscar_punto_con_fallbacks` (`xml_mappers.py` lines 15-72):
strategy 1 is direct lookup of the raw code; strategy 2, when the code
contains `-SUC-`, looks up the part after the last `-SUC-`; strategy 3 is
`buscar_punto_paso3`.  When no strategy finds a non-empty entry the
function returns the empty dict. -/
def buscar_punto_con_fallbacks (codigo_raw : String)
    (puntos_info : PuntosInfo) : PuntoInfo :=
  let p1 := dictGetD puntos_info codigo_raw
  if ¬ p1.isEmpty then p1
  else
    let p2 :=
      if pyContains codigo_raw "-SUC-" then
        dictGetD puntos_info ((pySplit codigo_raw "-SUC-").getLastD codigo_raw)
      else []
    if ¬ p2.isEmpty then p2
    else buscar_punto_paso3 codigo_raw puntos_info

/-! ### Order facts for the lexicographic string comparison -/

theorem charListLe_total : ∀ x y : List Char, charListLe x y = true ∨ charListLe y x = true := by
  intro x
  induction x with
  | nil => intro y; left; rfl
  | cons a as ih =>
    intro y
    cases y with
    | nil => right; rfl
    | cons b bs =>
      simp only [charListLe]
      rcases Nat.lt_trichotomy a.toNat b.toNat with h | h | h
      · left; simp [h]
      · have hba : ¬ b.toNat < a.toNat := by omega
        have hab : ¬ a.toNat < b.toNat := by omega
        rcases ih bs with h2 | h2
        · left; simp [hab, hba, h2]
        · right; simp [hab, hba, h2]
      · right; simp [h]

theorem charListLe_trans :
    ∀ x y z : List Char, charListLe x y = true → charListLe y z = true →
      charListLe x z = true := by
  intro x
  induction x with
  | nil => intro y z _ _; rfl
  | cons a as ih =>
    intro y z hxy hyz
    cases y with
    | nil => simp [charListLe] at hxy
    | cons b bs =>
      cases z with
      | nil => simp [charListLe] at hyz
      | cons c cs =>
        simp only [charListLe] at hxy hyz ⊢
        by_cases hab : a.toNat < b.toNat
        · by_cases hbc : b.toNat < c.toNat
          · have hac : a.toNat < c.toNat := Nat.lt_trans hab hbc
            simp [hac]
          · by_cases hcb : c.toNat < b.toNat
            · rw [if_neg hbc, if_pos hcb] at hyz
              exact absurd hyz (by decide)
            · have hac : a.toNat < c.toNat := by omega
              simp [hac]
        · by_cases hba : b.toNat < a.toNat
          · rw [if_neg hab, if_pos hba] at hxy
            exact absurd hxy (by decide)
          · rw [if_neg hab, if_neg hba] at hxy
            by_cases hbc : b.toNat < c.toNat
            · have hac : a.toNat < c.toNat := by omega
              simp [hac]
            · by_cases hcb : c.toNat < b.toNat
              · rw [if_neg hbc, if_pos hcb] at hyz
                exact absurd hyz (by decide)
              · rw [if_neg hbc, if_neg hcb] at hyz
                have hac : ¬ a.toNat < c.toNat := by omega
                have hca : ¬ c.toNat < a.toNat := by omega
                rw [if_neg hac, if_neg hca]
                exact ih bs cs hxy hyz

instance : IsTotal (String × String) parLe :=
  ⟨fun a b => charListLe_total a.1.data b.1.data⟩

instance : IsTrans (String × String) parLe :=
  ⟨fun a b c => charListLe_trans a.1.data b.1.data c.1.data⟩

instance : IsTotal String strLeProp :=
  ⟨fun a b => charListLe_total a.data b.data⟩

instance : IsTrans String strLeProp :=
  ⟨fun a b c => charListLe_trans a.data b.data c.data⟩

/-! ### Claim theorems -/

/-- C1: Idempotent insertion: with matching branch codes and a business
order id not yet stored, the first gateway call returns a ledger-assigned
order id and writes one row; the second call with the same pair returns the
`AlreadyExists` no-op (`None`) with no second write executed, and the
ledger holds exactly one row for that business order id. -/
theorem C1_insercion_idempotente (servicio : ServicioDTO)
    (transaccion : TransaccionDTO) (ledger : Ledger)
    (hsuc : servicio.cod_sucursal = transaccion.cod_sucursal)
    (hnuevo : ledger.count servicio.numero_pedido = 0) :
    ∃ orden ledger1,
      insertar_servicio_con_transaccion servicio transaccion false ledger =
        (.ordenServicio orden, ledger1) ∧
      insertar_servicio_con_transaccion servicio transaccion false ledger1 =
        (.alreadyExists, ledger1) ∧
      ledger1.count servicio.numero_pedido = 1 := by
  have hv1 : verificar_servicio_existe ledger false servicio.numero_pedido = false := by
    simp [verificar_servicio_existe, hnuevo]
  have hcount : (ledger ++ [servicio.numero_pedido]).count servicio.numero_pedido = 1 := by
    simp [List.count_append, hnuevo]
  have hv2 : verificar_servicio_existe (ledger ++ [servicio.numero_pedido]) false
      servicio.numero_pedido = true := by
    simp [verificar_servicio_existe, hcount]
  refine ⟨String.append "S-" (toString (ledger.length + 1)),
    ledger ++ [servicio.numero_pedido], ?_, ?_, hcount⟩
  · simp [insertar_servicio_con_transaccion, hsuc, hv1, addServiceTransaction]
  · simp [insertar_servicio_con_transaccion, hsuc, hv2]

/-- C1 witness: concrete two-call run starting from an empty ledger. -/
theorem C1_insercion_idempotente_witness :
    ∃ orden ledger1,
      insertar_servicio_con_transaccion ⟨"PED-1", 10, 0, 0, 0⟩ ⟨10, 0, 0, 0⟩
          false [] = (.ordenServicio orden, ledger1) ∧
      insertar_servicio_con_transaccion ⟨"PED-1", 10, 0, 0, 0⟩ ⟨10, 0, 0, 0⟩
          false ledger1 = (.alreadyExists, ledger1) ∧
      ledger1.count "PED-1" = 1 :=
  C1_insercion_idempotente ⟨"PED-1", 10, 0, 0, 0⟩ ⟨10, 0, 0, 0⟩ [] rfl rfl

/-- C2: Cross-field branch invariant: when the ServiceRecord's branch code
differs from the TransactionRecord's, the gateway raises the validation
exception before the existence check and the stored-procedure call --
whatever the ledger state or the state of the read connection -- and the
ledger is unchanged. -/
theorem C2_invariante_sucursal (servicio : ServicioDTO)
    (transaccion : TransaccionDTO) (lookupRaises : Bool) (ledger : Ledger)
    (hdif : servicio.cod_sucursal ≠ transaccion.cod_sucursal) :
    insertar_servicio_con_transaccion servicio transaccion lookupRaises ledger =
      (.inconsistenciaSucursal, ledger) := by
  simp [insertar_servicio_con_transaccion, hdif]

/-- C2 witness: the spec's concrete mismatch, branch 10 against branch 20,
over a non-empty ledger. -/
theorem C2_invariante_sucursal_witness :
    insertar_servicio_con_transaccion ⟨"PED-2", 10, 0, 0, 0⟩ ⟨20, 0, 0, 0⟩
        false ["OTRO"] = (.inconsistenciaSucursal, ["OTRO"]) :=
  C2_invariante_sucursal ⟨"PED-2", 10, 0, 0, 0⟩ ⟨20, 0, 0, 0⟩ false ["OTRO"]
    (by decide)

/-- C3 counterexample: a Cash4u spreadsheet row classified as collection
with parsed collected value 100 produces banknote_value = total_value =
100, not the all-zero monetary fields the claim requires on every
channel. -/
theorem C3_counterexample :
    cash4u_valores true false 100 [] = (100, 0, 100) ∧
      cash4u_valores true false 100 [] ≠ (0, 0, 0) := by
  exact ⟨by decide, by decide⟩

/-- C3 amended: collection zeroing holds on the fixed-text channel and the
XML remit channel; in the Cash4u spreadsheet mapper a collection row
instead takes total_value from the parsed collected value, with
banknote_value equal to it when positive and coin_value 0. -/
theorem C3_valores_recoleccion (vb vm : Int) (es_moneda : Bool)
    (valor_rec : Int) (cols : List (Nat × Int)) :
    valores_txt_tipo2 false vb vm = (0, 0, 0) ∧
      valores_xml_remit = (0, 0, 0) ∧
      cash4u_valores true es_moneda valor_rec cols =
        ((if valor_rec > 0 then valor_rec else 0), 0, valor_rec) := by
  refine ⟨rfl, rfl, ?_⟩
  simp [cash4u_valores]

/-- C4 counterexample: in the fixed-text channel a unit value of 1999 is
classified as a banknote (the threshold there is 1000, not 2000), and the
XML channel likewise adds a 1999-valued denomination to the banknote
bucket, contradicting the claim that 1999 classifies as Coin on every
channel. -/
theorem C4_counterexample :
    determinar_tipo_denominacion 1999 = "BILLETE" ∧
      acumular_denominacion_xml (0, 0) ("1999AD", 7) = (7, 0) := by
  exact ⟨by decide, by decide⟩

/-- C4 amended: the 2000/1999 boundary and the divide-by-100 rule for
coin-flagged values >= 10000 hold in the Cash4u spreadsheet classifier; the
fixed-text and XML classifiers use threshold 1000 (2000 and 1999 are both
banknotes there) and apply no division. -/
theorem C4_limites_clasificacion (acc : Int × Int) (cant : Int)
    (hcant : 0 < cant) :
    cash4u_acumular false acc (2000, cant) = (acc.1 + cant * 2000, acc.2) ∧
      cash4u_acumular false acc (1999, cant) = (acc.1, acc.2 + cant * 1999) ∧
      cash4u_acumular true acc (15000, cant) = (acc.1, acc.2 + cant * 150) ∧
      determinar_tipo_denominacion 2000 = "BILLETE" ∧
      determinar_tipo_denominacion 1999 = "BILLETE" ∧
      determinar_tipo_denominacion 999 = "MONEDA" ∧
      (∀ amount : Int,
        acumular_denominacion_xml acc ("2000", amount) = (acc.1 + amount, acc.2)) ∧
      (∀ amount : Int,
        acumular_denominacion_xml acc ("1999", amount) = (acc.1 + amount, acc.2)) := by
  refine ⟨?_, ?_, ?_, by decide, by decide, by decide, ?_, ?_⟩
  · have h : cash4u_ajustar_deno false 2000 = 2000 := rfl
    rw [cash4u_acumular, if_pos hcant, h]
    norm_num
  · have h : cash4u_ajustar_deno false 1999 = 1999 := rfl
    rw [cash4u_acumular, if_pos hcant, h]
    norm_num
  · have h : cash4u_ajustar_deno true 15000 = 150 := by
      norm_num [cash4u_ajustar_deno]
    rw [cash4u_acumular, if_pos hcant, h]
    norm_num
  · intro amount; rfl
  · intro amount; rfl

/-- C4 witness: the amended boundary facts at quantity 5 and empty
accumulators, including the 15000 -> 150 coin adjustment. -/
theorem C4_limites_clasificacion_witness :
    (0 : Int) < 5 ∧
      cash4u_acumular true ((0 : Int), (0 : Int)) (15000, 5) = (0, 0 + 5 * 150) :=
  ⟨by decide, (C4_limites_clasificacion ((0 : Int), (0 : Int)) 5 (by decide)).2.2.1⟩

/-- C5: Acknowledgement determinism: the TXT per-id emitter writes one line
per id in ascending lexicographic string order of the ids, and on the
batch ids 200, 10, 5 with statuses 1, 2, 1 the body is exactly
"10,2 / 200,1 / 5,1" (newline-separated), proving the sort is on strings,
not numbers. -/
theorem C5_determinismo_respuesta :
    generar_respuesta_por_id_body [("200", "1"), ("10", "2"), ("5", "1")] =
        "10,2\n200,1\n5,1\n" ∧
      ∀ pares : List (String × String),
        List.Sorted parLe (respuesta_por_id_pares pares) := by
  constructor
  · rfl
  · intro pares
    exact List.sorted_insertionSort parLe pares

/-- C6 counterexample: with the business order id "P1" already in the
ledger, the TXT insertion path returns exitoso = false with error
"Servicio ya existe (duplicado)": the duplicate is counted as a failed
record, not as the success the claim requires. -/
theorem C6_counterexample :
    (insertar_desde_txt_tipo2 ⟨"P1", 10, 0, 0, 0⟩ ⟨10, 0, 0, 0⟩ false
        ["P1"]).1 =
      ⟨false, "P1", none, some "Servicio ya existe (duplicado)"⟩ := by
  decide

/-- C6 amended: when the business order id already exists (branches
matching), no exception propagates -- the call returns a structured
per-record result and the ledger is unchanged -- but the record is
reported as a failure (exitoso = false, error "Servicio ya existe
(duplicado)"), not as a successful no-op. -/
theorem C6_duplicado_sin_excepcion (servicio : ServicioDTO)
    (transaccion : TransaccionDTO) (ledger : Ledger)
    (hsuc : servicio.cod_sucursal = transaccion.cod_sucursal)
    (hexiste : 0 < ledger.count servicio.numero_pedido) :
    insertar_desde_txt_tipo2 servicio transaccion false ledger =
      (⟨false, servicio.numero_pedido, none,
        some "Servicio ya existe (duplicado)"⟩, ledger) := by
  have hv : verificar_servicio_existe ledger false servicio.numero_pedido = true := by
    simp [verificar_servicio_existe, hexiste]
  simp [insertar_desde_txt_tipo2, insertar_servicio_con_transaccion, hsuc, hv,
    resultadoDesdeWriter]

/-- C6 amended witness: the duplicate "P2" over a one-row ledger. -/
theorem C6_duplicado_sin_excepcion_witness :
    insertar_desde_txt_tipo2 ⟨"P2", 10, 0, 0, 0⟩ ⟨10, 0, 0, 0⟩ false ["P2"] =
      (⟨false, "P2", none, some "Servicio ya existe (duplicado)"⟩, ["P2"]) :=
  C6_duplicado_sin_excepcion ⟨"P2", 10, 0, 0, 0⟩ ⟨10, 0, 0, 0⟩ ["P2"] rfl
    (by decide)

/-- A non-empty result of a `puntos_info.get(k, {})` lookup is literally the
stored entry for `k`. -/
theorem lookup_of_dictGetD_ne_nil {tabla : PuntosInfo} {k : String}
    (h : dictGetD tabla k ≠ []) :
    tabla.lookup k = some (dictGetD tabla k) := by
  unfold dictGetD at *
  cases hl : tabla.lookup k with
  | none => rw [hl] at h; simp at h
  | some v => simp [hl]

/-- Whatever strategy 3 returns is the empty dict or an entry stored in the
reference table. -/
theorem buscar_punto_paso3_cases (codigo_raw : String)
    (puntos_info : PuntosInfo) :
    buscar_punto_paso3 codigo_raw puntos_info = [] ∨
      ∃ k, puntos_info.lookup k =
        some (buscar_punto_paso3 codigo_raw puntos_info) := by
  rcases hm : pySplitOnce (pyReplace codigo_raw "-SUC-" "-") "-" with
    _ | ⟨x, _ | ⟨y, _ | ⟨z, zs⟩⟩⟩
  · left; simp [buscar_punto_paso3, hm]
  · left; simp [buscar_punto_paso3, hm]
  · cases hl : cc_to_cliente.lookup x with
    | none => left; simp [buscar_punto_paso3, hm, hl]
    | some cliente =>
      by_cases h3 : dictGetD puntos_info (cliente ++ "-" ++ y) = []
      · left; simp [buscar_punto_paso3, hm, hl, h3]
      · right
        refine ⟨cliente ++ "-" ++ y, ?_⟩
        have hres : buscar_punto_paso3 codigo_raw puntos_info =
            dictGetD puntos_info (cliente ++ "-" ++ y) := by
          have hne : ¬ (dictGetD puntos_info (cliente ++ "-" ++ y)).isEmpty = true := by
            simpa [List.isEmpty_iff] using h3
          simp [buscar_punto_paso3, hm, hl, hne]
        rw [hres]
        exact lookup_of_dictGetD_ne_nil h3
  · left; simp [buscar_punto_paso3, hm]

/-- C7 counterexample: `ResponseService.generate_and_save` on a batch whose
every record failed (its sole id gets estado "2") still emits the partner
code extracted from the file name, "01", not the "00" sentinel the claim
requires for all-failed batches. -/
theorem C7_counterexample :
    (generate_and_save
        [⟨some "1", "No encontrado", "Cliente no encontrado", "Ciudad no encontrada"⟩]
        "ICOREX_C4U-01-Vatco_2656_20250512_164009.xml") =
      ("01", [("1", "2")]) ∧ "01" ≠ "00" := by
  exact ⟨by decide, by decide⟩

/-- C7 amended: in `ResponseService.generate_and_save` the partner code
always equals the positional extraction from the source file name ("00"
exactly when unextractable), regardless of the batch outcome; the forcing
to "00" on an all-failed batch exists only in `XMLProcessor`'s per-id
response path, where a non-empty id batch whose estados are all "2" yields
"00" and any other batch yields the extracted code. -/
theorem C7_codigo_cc (dataset : List FilaDataset) (xml_name : String)
    (ids : List String) (estados_por_id : List (String × String)) :
    (generate_and_save dataset xml_name).1 = extract_cc_from_filename xml_name ∧
      (ids ≠ [] → (∀ i ∈ ids, (estados_por_id.lookup i).getD "1" = "2") →
        xml_cc_code ids estados_por_id xml_name = "00") ∧
      ((∃ i ∈ ids, (estados_por_id.lookup i).getD "1" ≠ "2") →
        xml_cc_code ids estados_por_id xml_name =
          extract_cc_from_filename xml_name) := by
  refine ⟨rfl, ?_, ?_⟩
  · intro hne hall
    have h1 : ids.isEmpty = false := by
      cases ids with
      | nil => exact absurd rfl hne
      | cons a l => rfl
    have h2 : (ids.map (fun i => (estados_por_id.lookup i).getD "1")).all
        (· = "2") = true := by
      rw [List.all_eq_true]
      intro x hx
      rcases List.mem_map.mp hx with ⟨i, hi, hxi⟩
      simp [← hxi, hall i hi]
    simp [xml_cc_code, h1, h2]
  · rintro ⟨i, hi, hne2⟩
    have h2 : (ids.map (fun i => (estados_por_id.lookup i).getD "1")).all
        (· = "2") = false := by
      rw [Bool.eq_false_iff]
      intro hcontra
      rw [List.all_eq_true] at hcontra
      exact hne2 (by simpa using hcontra _ (List.mem_map_of_mem _ hi))
    simp [xml_cc_code, h2]

/-- C7 amended witness: a one-id all-failed batch forces the XML per-id path
to emit partner code "00" even though the file name carries "01". -/
theorem C7_codigo_cc_witness :
    (["9"] : List String) ≠ [] ∧
      xml_cc_code ["9"] [("9", "2")]
        "ICOREX_C4U-01-Vatco_2656_20250512_164009.xml" = "00" :=
  ⟨by decide,
    (C7_codigo_cc [] "ICOREX_C4U-01-Vatco_2656_20250512_164009.xml" ["9"]
        [("9", "2")]).2.1 (by decide) (by decide)⟩

/-- C8: Resolution fallback order: when direct lookup of a `-SUC-` composite
code fails but the suffix after the `-SUC-` marker is present in the
reference table, `_buscar_punto_con_fallbacks` returns that step-2 entry;
and whatever it returns is either the empty not-found dict or an entry
stored in the table -- never a fabricated placeholder point. -/
theorem C8_fallback_resolucion (codigo_raw : String) (puntos_info : PuntosInfo)
    (hsuc : pyContains codigo_raw "-SUC-" = true)
    (hdirecto : dictGetD puntos_info codigo_raw = [])
    (hsufijo : dictGetD puntos_info
        ((pySplit codigo_raw "-SUC-").getLastD codigo_raw) ≠ []) :
    buscar_punto_con_fallbacks codigo_raw puntos_info =
        dictGetD puntos_info ((pySplit codigo_raw "-SUC-").getLastD codigo_raw) ∧
      ∀ codigo2 tabla,
        buscar_punto_con_fallbacks codigo2 tabla = [] ∨
          ∃ k, tabla.lookup k = some (buscar_punto_con_fallbacks codigo2 tabla) := by
  constructor
  · simp only [buscar_punto_con_fallbacks, hdirecto, hsuc, List.isEmpty_nil,
      not_true_eq_false, if_false, if_true, ite_true, ite_false]
    have hne2 : ¬ (dictGetD puntos_info
        ((pySplit codigo_raw "-SUC-").getLastD codigo_raw)).isEmpty = true := by
      simpa [List.isEmpty_iff] using hsufijo
    rw [if_pos hne2]
  · intro codigo2 tabla
    by_cases h1 : dictGetD tabla codigo2 = []
    · by_cases hc : pyContains codigo2 "-SUC-"
      · by_cases h2 : dictGetD tabla ((pySplit codigo2 "-SUC-").getLastD codigo2) = []
        · have hres : buscar_punto_con_fallbacks codigo2 tabla =
              buscar_punto_paso3 codigo2 tabla := by
            simp only [buscar_punto_con_fallbacks, h1, hc, List.isEmpty_nil,
              not_true_eq_false, if_false, if_true, ite_true, ite_false, h2]
          rw [hres]
          exact buscar_punto_paso3_cases codigo2 tabla
        · right
          refine ⟨(pySplit codigo2 "-SUC-").getLastD codigo2, ?_⟩
          have hne2 : ¬ (dictGetD tabla
              ((pySplit codigo2 "-SUC-").getLastD codigo2)).isEmpty = true := by
            simpa [List.isEmpty_iff] using h2
          have hres : buscar_punto_con_fallbacks codigo2 tabla =
              dictGetD tabla ((pySplit codigo2 "-SUC-").getLastD codigo2) := by
            simp only [buscar_punto_con_fallbacks, h1, hc, List.isEmpty_nil,
              not_true_eq_false, if_false, if_true, ite_true, ite_false]
            rw [if_pos hne2]
          rw [hres]
          exact lookup_of_dictGetD_ne_nil h2
      · have hres : buscar_punto_con_fallbacks codigo2 tabla =
            buscar_punto_paso3 codigo2 tabla := by
          simp [buscar_punto_con_fallbacks, h1, hc]
        rw [hres]
        exact buscar_punto_paso3_cases codigo2 tabla
    · right
      refine ⟨codigo2, ?_⟩
      have hne1 : ¬ (dictGetD tabla codigo2).isEmpty = true := by
        simpa [List.isEmpty_iff] using h1
      have hres : buscar_punto_con_fallbacks codigo2 tabla =
          dictGetD tabla codigo2 := by
        simp [buscar_punto_con_fallbacks, hne1]
      rw [hres]
      exact lookup_of_dictGetD_ne_nil h1

/-- C8 witness: the spec's example "52-SUC-0075" over a table holding the
stripped suffix "0075". -/
theorem C8_fallback_resolucion_witness :
    pyContains "52-SUC-0075" "-SUC-" = true ∧
      buscar_punto_con_fallbacks "52-SUC-0075"
          [("0075", [("nombre_punto", "PUNTO X")])] =
        [("nombre_punto", "PUNTO X")] := by
  refine ⟨by decide, ?_⟩
  have h := C8_fallback_resolucion "52-SUC-0075"
    [("0075", [("nombre_punto", "PUNTO X")])] (by decide) (by decide) (by decide)
  exact h.1.trans (by decide)

/-- C9: Fail-open duplicate check: when the existence query raises, the
exception is swallowed and `verificar_servicio_existe` answers `False`, so
the gateway proceeds to execute the ledger write -- appending a row and
returning an order -- even though the business order id may already be
stored (the row count for the id grows by one regardless). -/
theorem C9_chequeo_fail_open (servicio : ServicioDTO)
    (transaccion : TransaccionDTO) (ledger : Ledger)
    (hsuc : servicio.cod_sucursal = transaccion.cod_sucursal) :
    verificar_servicio_existe ledger true servicio.numero_pedido = false ∧
      insertar_servicio_con_transaccion servicio transaccion true ledger =
        (.ordenServicio (String.append "S-" (toString (ledger.length + 1))),
          ledger ++ [servicio.numero_pedido]) ∧
      (ledger ++ [servicio.numero_pedido]).count servicio.numero_pedido =
        ledger.count servicio.numero_pedido + 1 := by
  refine ⟨rfl, ?_, ?_⟩
  · simp [insertar_servicio_con_transaccion, hsuc, verificar_servicio_existe,
      addServiceTransaction]
  · simp [List.count_append]

/-- C9 witness: "P9" is already in the ledger, the lookup raises, and the
write is executed anyway, leaving two rows for "P9". -/
theorem C9_chequeo_fail_open_witness :
    insertar_servicio_con_transaccion ⟨"P9", 10, 0, 0, 0⟩ ⟨10, 0, 0, 0⟩ true
        ["P9"] = (.ordenServicio "S-2", ["P9", "P9"]) ∧
      (["P9", "P9"] : List String).count "P9" = 2 :=
  ⟨(C9_chequeo_fail_open ⟨"P9", 10, 0, 0, 0⟩ ⟨10, 0, 0, 0⟩ ["P9"] rfl).2.1,
    by decide⟩

/-- C10: Uniform batch status: every line `ResponseService.generate_and_save`
writes carries the single batch status from `_compute_estado` -- "2" when
some dataset row has "NO ENCONTRADO" in its NOMBRE PUNTO, ENTIDAD or CIUDAD
field, "1" when no row does -- and the emitted id list is deduplicated
before writing. -/
theorem C10_estado_uniforme (dataset : List FilaDataset) (xml_name : String) :
    (generate_and_save dataset xml_name).2 =
        (ids_emitidos dataset xml_name).map
          (fun i => (pyStrip i, compute_estado dataset)) ∧
      ((∃ f ∈ dataset, fila_mala f) → compute_estado dataset = "2") ∧
      ((∀ f ∈ dataset, ¬ fila_mala f) → compute_estado dataset = "1") ∧
      (ids_emitidos dataset xml_name).Nodup := by
  refine ⟨rfl, ?_, ?_, ?_⟩
  · rintro ⟨f, hf, hmala⟩
    have hany : dataset.any fila_mala = true :=
      List.any_eq_true.mpr ⟨f, hf, hmala⟩
    simp [compute_estado, hany]
  · intro hninguna
    have hany : dataset.any fila_mala = false := by
      rw [Bool.eq_false_iff]
      intro hcontra
      rcases List.any_eq_true.mp hcontra with ⟨f, hf, hmala⟩
      exact hninguna f hf hmala
    simp [compute_estado, hany]
  · unfold ids_emitidos sortedSet
    exact (List.perm_insertionSort strLeProp _).nodup_iff.mpr (List.nodup_dedup _)

/-- C10 witness: a dataset whose single row carries "No encontrado" gets the
uniform batch status "2". -/
theorem C10_estado_uniforme_witness :
    compute_estado [⟨some "7", "No encontrado", "", ""⟩] = "2" :=
  (C10_estado_uniforme [⟨some "7", "No encontrado", "", ""⟩] "f.xml").2.1
    ⟨⟨some "7", "No encontrado", "", ""⟩, List.mem_singleton.mpr rfl, by decide⟩

end AetherCore
